import Mathlib

/-!
# Verification of the HR1 household tax-impact dashboard core logic

Shallow embedding of the selection / filtering / ranking logic and the
waterfall (reform attribution) computation of `github_clueless.py`.
All currency amounts are modelled as exact rationals (`ℚ`); the Python
floats carry decimal literals that embed exactly.

A household row of the input table.  Scalar columns of the schema are named
fields; the per-reform-component columns (39 columns whose names are built
by string formatting in the source, e.g. `Federal tax liability after SALT
Reform`) are modelled as one total lookup function `col` from the full
column name to the stored value, mirroring the formatted-string indexing of the row.
The column `Baseline State Tax Liability` is read in the source with
a `get` lookup with default 0 — because the column may be absent from the table — so it is an
`Option ℚ` here.
-/

structure Household where
  householdId : Int
  state : String
  ageOfHead : ℚ
  isMarried : Bool
  ageOfSpouse : ℚ
  numberOfDependents : Int
  householdWeight : ℚ
  baselineFederalTaxLiability : ℚ
  baselineNetIncome : ℚ
  stateIncomeTax : ℚ
  propertyTaxes : ℚ
  baselineStateTaxLiability : Option ℚ
  col : String → ℚ
  totalChangeInFederalTaxLiability : ℚ
  totalChangeInStateTaxLiability : ℚ
  totalChangeInNetIncome : ℚ
  percentageChangeInFederalTaxLiability : ℚ
  percentageChangeInStateTaxLiability : ℚ
  percentageChangeInNetIncome : ℚ

/-- The fixed reform-component catalog `reform_configs`:
`(display_name, col_name, income_col)` triples, in source order. -/
def reform_configs : List (String × String × String) :=
  [("Tax Rate Reform", "Tax Rate Reform", "Net income change after Tax Rate Reform"),
   ("Standard Deduction Reform", "Standard Deduction Reform", "Net income change after Standard Deduction Reform"),
   ("Exemption Reform", "Exemption Reform", "Net income change after Exemption Reform"),
   ("Child Tax Credit Reform", "CTC Reform", "Net income change after CTC Reform"),
   ("QBID Reform", "QBID Reform", "Net income change after QBID Reform"),
   ("AMT Reform", "AMT Reform", "Net income change after AMT Reform"),
   ("SALT Reform", "SALT Reform", "Net income change after SALT Reform"),
   ("Tip Income Exemption", "Tip Income Exempt", "Net income change after Tip Income Exempt"),
   ("Overtime Income Exemption", "Overtime Income Exempt", "Net income change after Overtime Income Exempt"),
   ("Auto Loan Interest Deduction", "Auto Loan Interest ALD", "Net income change after Auto Loan Interest ALD"),
   ("Miscellaneous Reform", "Miscellaneous Reform", "Net income change after Miscellaneous Reform"),
   ("Other Itemized Deductions Reform", "Other Itemized Deductions Reform", "Net income change after Other Itemized Deductions Reform"),
   ("Pease Reform", "Pease Reform", "Net income change after Pease Reform")]

/-- `reform_components`: for each catalog entry, the tuple
`(display_name, combined_tax, income_change)` built at source lines 348–353. -/
def reform_components (h : Household) (show_federal show_state : Bool) :
    List (String × ℚ × ℚ) :=
  reform_configs.map (fun cfg =>
    (cfg.1,
     (if show_federal then h.col ("Federal tax liability after " ++ cfg.2.1) else 0)
       + (if show_state then h.col ("State tax liability after " ++ cfg.2.1) else 0),
     h.col cfg.2.2))

/-- `active_components`: the components whose net-income delta magnitude
exceeds 0.01 (source line 356). -/
def active_components (h : Household) (show_federal show_state : Bool) :
    List (String × ℚ × ℚ) :=
  (reform_components h show_federal show_state).filter
    (fun c => decide ((0.01 : ℚ) < |c.2.2|))

/-- `chart_type`: `" & ".join(chart_title) + " Tax"` (source lines 378–381). -/
def chart_type (show_federal show_state : Bool) : String :=
  String.intercalate " & "
      ((if show_federal then ["Federal"] else []) ++
       (if show_state then ["State"] else [])) ++ " Tax"

/-- `baseline_total` (source lines 386–388): federal baseline if shown, plus
the `Baseline State Tax Liability` column (default 0 when absent) if shown. -/
def baseline_total (h : Household) (show_federal show_state : Bool) : ℚ :=
  (if show_federal then h.baselineFederalTaxLiability else 0)
    + (if show_state then h.baselineStateTaxLiability.getD 0 else 0)

/-- The baseline total as the specification words it (a refinement reading of
the claim): federal baseline tax if shown plus the state baseline tax of the
data model if shown — the data model and input schema carry exactly one state
baseline field, `State Income Tax`. -/
def baseline_total_spec (h : Household) (show_federal show_state : Bool) : ℚ :=
  (if show_federal then h.baselineFederalTaxLiability else 0)
    + (if show_state then h.stateIncomeTax else 0)

/-- `total_tax_change` (source lines 290–292): aggregate federal change if
shown plus aggregate state change if shown. -/
def total_tax_change (h : Household) (show_federal show_state : Bool) : ℚ :=
  (if show_federal then h.totalChangeInFederalTaxLiability else 0)
    + (if show_state then h.totalChangeInStateTaxLiability else 0)

/-- `final_total = baseline_total + total_tax_change` (source line 400). -/
def final_total (h : Household) (show_federal show_state : Bool) : ℚ :=
  baseline_total h show_federal show_state + total_tax_change h show_federal show_state

/-- The loop at source lines 394–397: each active component appends the
relative step `(name, -income_change, running_total)`. -/
def waterfallLoop : List (String × ℚ × ℚ) → ℚ → List (String × ℚ × ℚ)
  | [], _ => []
  | c :: rest, running =>
      (c.1, -c.2.2, running + -c.2.2) :: waterfallLoop rest (running + -c.2.2)

/-- `waterfall_data` (source lines 391–401): baseline step, one relative step
per active component, final step. -/
def waterfall_data (h : Household) (show_federal show_state : Bool) :
    List (String × ℚ × ℚ) :=
  let bt := baseline_total h show_federal show_state
  let ft := final_total h show_federal show_state
  let ct := chart_type show_federal show_state
  (("Baseline " ++ ct, bt, bt) ::
      waterfallLoop (active_components h show_federal show_state) bt)
    ++ [("Final " ++ ct, ft, ft)]

/-- The `measure` list passed to the chart (source line 411):
`["absolute"] + ["relative"] * len(active_components) + ["total"]`. -/
def waterfall_measures (h : Household) (show_federal show_state : Bool) :
    List String :=
  ["absolute"] ++
    List.replicate (active_components h show_federal show_state).length "relative"
    ++ ["total"]

/-- `total_calculated_change` (source line 435): sum of the entries of
`waterfall_data[1:-1]`, i.e. all relative step deltas. -/
def total_calculated_change (h : Household) (show_federal show_state : Bool) : ℚ :=
  (((waterfall_data h show_federal show_state).drop 1).dropLast.map
    (fun s => s.2.1)).sum

/-- `actual_change` (source line 438): negation of the stored total net-income
change. -/
def actual_change (h : Household) : ℚ :=
  -h.totalChangeInNetIncome

/-- The verifier condition (source line 441): passes when
`abs(total_calculated_change - actual_change) < 3`. -/
def verification_passes (h : Household) (show_federal show_state : Bool) : Bool :=
  decide (|total_calculated_change h show_federal show_state - actual_change h| < 3)

/-! ## Filter engine (source lines 32–106) -/

/-- The dependent-count filter options other than "All": an exact count
("0", "1", "2") or the "3+" bucket. -/
inductive DependentsFilter where
  | exactly (n : Int)
  | threePlus
deriving DecidableEq

/-- Filter criteria: each field is `some` constraint exactly when the
corresponding widget selection is not its "All" option, matching the guards
`if min_weight > 0`, the income-range guard,
`if selected_state != "All States"`, `if selected_marital != "All"`,
`if selected_dependents != "All"`, `if selected_age != "All Ages"`.
A `none` upper bound of an income range models the unbounded maximum. -/
structure FilterCriteria where
  minWeight : Option ℚ
  incomeRange : Option (ℚ × Option ℚ)
  state : Option String
  maritalStatus : Option Bool
  dependents : Option DependentsFilter
  ageRange : Option (ℚ × ℚ)

def weightPred (o : Option ℚ) (h : Household) : Bool :=
  match o with
  | none => true
  | some w => decide (w ≤ h.householdWeight)

def incomePred (o : Option (ℚ × Option ℚ)) (h : Household) : Bool :=
  match o with
  | none => true
  | some (lo, hi) =>
      decide (lo ≤ h.baselineNetIncome) &&
        (match hi with
         | none => true
         | some hiv => decide (h.baselineNetIncome ≤ hiv))

def statePred (o : Option String) (h : Household) : Bool :=
  match o with
  | none => true
  | some s => h.state == s

def maritalPred (o : Option Bool) (h : Household) : Bool :=
  match o with
  | none => true
  | some m => h.isMarried == m

def dependentsPred (o : Option DependentsFilter) (h : Household) : Bool :=
  match o with
  | none => true
  | some (.exactly n) => h.numberOfDependents == n
  | some .threePlus => decide ((3 : Int) ≤ h.numberOfDependents)

def agePred (o : Option (ℚ × ℚ)) (h : Household) : Bool :=
  match o with
  | none => true
  | some (lo, hi) => decide (lo ≤ h.ageOfHead) && decide (h.ageOfHead < hi)

/-- One conditional filtering stage: when the criterion is absent the record
set passes through untouched (the source skips the `df_filtered[...]` line),
otherwise rows failing the predicate are removed. -/
def applyStage (records : List Household) (o : Option α)
    (pred : Option α → Household → Bool) : List Household :=
  match o with
  | none => records
  | some _ => records.filter (pred o)

/-- `df_filtered`: the six filter stages applied in source order
(weight, income, state, marital status, dependents, age of head). -/
def df_filtered (records : List Household) (c : FilterCriteria) : List Household :=
  applyStage (applyStage (applyStage (applyStage (applyStage (applyStage
    records c.minWeight weightPred)
    c.incomeRange incomePred)
    c.state statePred)
    c.maritalStatus maritalPred)
    c.dependents dependentsPred)
    c.ageRange agePred

/-- The six individual predicates of a criteria value, in source order. -/
def filterPreds (c : FilterCriteria) : List (Household → Bool) :=
  [weightPred c.minWeight, incomePred c.incomeRange, statePred c.state,
   maritalPred c.maritalStatus, dependentsPred c.dependents, agePred c.ageRange]

/-- Applying a list of predicates as successive filters, in list order. -/
def foldFilters (records : List Household) (l : List (Household → Bool)) :
    List Household :=
  l.foldl (fun acc p => acc.filter p) records

/-! ## Household selector (source lines 117–201) -/

/-- Modelled from pandas `Series.sample(1).iloc[0]` on the `Household ID`
column: one uniformly drawn element, represented by an arbitrary RNG draw
`k` reduced modulo the length; `none` on an empty series (pandas raises). -/
def sampleId (ids : List Int) (k : Nat) : Option Int :=
  ids.get? (k % ids.length)

/-- The "Random Shuffle" branch (source lines 128–137): a button press
re-draws into `st.session_state.random_household`; otherwise the persisted
value is kept, and only a missing value triggers an initial draw.  Returns
(new session value, `household_id` used by the rest of the pass).  `k1`, `k2`
are the RNG draws for the button re-draw and the initial draw. -/
def randomSelect (ids : List Int) (sessionRandomHousehold : Option Int)
    (buttonPressed : Bool) (k1 k2 : Nat) : Option Int × Option Int :=
  let s1 := if buttonPressed then sampleId ids k1 else sessionRandomHousehold
  let s2 := match s1 with
    | none => sampleId ids k2
    | some v => some v
  (s2, s2)

/-- Source line 201: the row lookup by `Household ID` followed by `.iloc[0]`.
`.iloc[0]` on an empty selection raises `IndexError`; that failure is `none`. -/
def householdLookup (df : List Household) (hid : Int) : Option Household :=
  (df.filter (fun h => h.householdId == hid)).head?

/-- `nlargest` / `nsmallest`: the two pandas ranking methods used by the
category table at source lines 153–162. -/
inductive SortMethod where
  | nlargest
  | nsmallest
deriving DecidableEq

/-- The eight "interesting case" labels (source lines 141–150). -/
def case_types : List String :=
  ["Largest % Federal Tax Increase",
   "Largest % Federal Tax Decrease",
   "Largest Federal Tax Increase",
   "Largest Federal Tax Decrease",
   "Largest % Income Increase",
   "Largest % Income Decrease",
   "Largest Income Increase",
   "Largest Income Decrease"]

/-- The `categories` dict (source lines 153–162): case label to
(ranking method, metric column name). -/
def categories (caseType : String) : Option (SortMethod × String) :=
  List.lookup caseType
    [("Largest % Federal Tax Increase", (SortMethod.nlargest, "Percentage Change in Federal Tax Liability")),
     ("Largest % Federal Tax Decrease", (SortMethod.nsmallest, "Percentage Change in Federal Tax Liability")),
     ("Largest Federal Tax Increase", (SortMethod.nlargest, "Total Change in Federal Tax Liability")),
     ("Largest Federal Tax Decrease", (SortMethod.nsmallest, "Total Change in Federal Tax Liability")),
     ("Largest % Income Increase", (SortMethod.nlargest, "Percentage Change in Net Income")),
     ("Largest % Income Decrease", (SortMethod.nsmallest, "Percentage Change in Net Income")),
     ("Largest Income Increase", (SortMethod.nlargest, "Total Change in Net Income")),
     ("Largest Income Decrease", (SortMethod.nsmallest, "Total Change in Net Income"))]

/-- The four aggregate metric columns used by the categories table, as
accessors on a record; other names are never looked up. -/
def aggColumn (colName : String) (h : Household) : ℚ :=
  if colName = "Percentage Change in Federal Tax Liability" then
    h.percentageChangeInFederalTaxLiability
  else if colName = "Total Change in Federal Tax Liability" then
    h.totalChangeInFederalTaxLiability
  else if colName = "Percentage Change in Net Income" then
    h.percentageChangeInNetIncome
  else if colName = "Total Change in Net Income" then
    h.totalChangeInNetIncome
  else 0

/-- Comparator on (original row position, record): by the metric in the
chosen direction, ties by original position.  This is the sort order of
pandas `nlargest`/`nsmallest` with the default keep-first tie policy. -/
def rankLE (m : SortMethod) (key : Household → ℚ) (a b : Nat × Household) : Bool :=
  match m with
  | .nlargest => decide (key b.2 < key a.2 ∨ (key a.2 = key b.2 ∧ a.1 ≤ b.1))
  | .nsmallest => decide (key a.2 < key b.2 ∨ (key a.2 = key b.2 ∧ a.1 ≤ b.1))

/-- Modelled from pandas `DataFrame.nlargest(20, column)` /
`nsmallest(20, column)` with the default keep-first tie policy (source line 165): the
first 20 rows of a stable sort by the column, descending for `nlargest` and
ascending for `nsmallest`, ties keeping original row order.  Rows are carried
with their original positions. -/
def rankedRows (m : SortMethod) (key : Household → ℚ) (df : List Household) :
    List (Nat × Household) :=
  (List.mergeSort df.enum (rankLE m key)).take 20

/-- `top_households` (source line 165), as the plain record list. -/
def top_households (df : List Household) (caseType : String) : List Household :=
  match categories caseType with
  | some (m, colName) => (rankedRows m (aggColumn colName) df).map (fun p => p.2)
  | none => []

/-- The strict ordering "metric in the chosen direction, ties broken by
original row order" on position-tagged rows. -/
def rankedBefore (m : SortMethod) (key : Household → ℚ) (a b : Nat × Household) :
    Prop :=
  match m with
  | .nlargest => key b.2 < key a.2 ∨ (key a.2 = key b.2 ∧ a.1 < b.1)
  | .nsmallest => key a.2 < key b.2 ∨ (key a.2 = key b.2 ∧ a.1 < b.1)

/-! ## Biggest driver and the impact render pass -/

/-- `max(active_components, key=lambda x: abs(x[2]))` (source line 457).
Python `max` keeps the current value on ties, so the first maximum in
iteration order wins. -/
def biggest_impact_reform (active : List (String × ℚ × ℚ)) :
    Option (String × ℚ × ℚ) :=
  match active with
  | [] => none
  | x :: xs =>
      some (xs.foldl (fun best y => if |best.2.2| < |y.2.2| then y else best) x)

inductive RenderError where
  | noTaxTypeSelected
deriving DecidableEq

/-- What one render pass computes after household selection: the waterfall
block (present only when some component is active, source line 361), the
verification outcome with its discrepancy report (source lines 435–444), and
the biggest driver (source lines 456–460). -/
structure ImpactOutput where
  summary_tax_change : ℚ
  waterfall : Option (List (String × ℚ × ℚ))
  measures : Option (List String)
  verification_ok : Option Bool
  discrepancy : Option (ℚ × ℚ)
  biggest_driver : Option (String × ℚ × ℚ)

/-- The impact-summary / waterfall portion of a render pass.  When neither
tax type is selected the pass stops (`st.stop()` at source line 257) before
any of it runs; a failed verification only adds a discrepancy report
(`st.error` at source line 444) and removes nothing. -/
def renderImpact (h : Household) (show_federal show_state : Bool) :
    Except RenderError ImpactOutput :=
  if !show_federal && !show_state then
    .error .noTaxTypeSelected
  else
    let active := active_components h show_federal show_state
    if active.isEmpty then
      .ok { summary_tax_change := total_tax_change h show_federal show_state,
            waterfall := none, measures := none, verification_ok := none,
            discrepancy := none, biggest_driver := none }
    else
      let ok := verification_passes h show_federal show_state
      .ok { summary_tax_change := total_tax_change h show_federal show_state,
            waterfall := some (waterfall_data h show_federal show_state),
            measures := some (waterfall_measures h show_federal show_state),
            verification_ok := some ok,
            discrepancy :=
              if ok then none
              else some (total_calculated_change h show_federal show_state,
                         actual_change h),
            biggest_driver := biggest_impact_reform active }

/-! ## Concrete sample records -/

/-- A neutral concrete record for building test households. -/
def baseHousehold : Household where
  householdId := 1
  state := "CA"
  ageOfHead := 40
  isMarried := false
  ageOfSpouse := 0
  numberOfDependents := 0
  householdWeight := 1000
  baselineFederalTaxLiability := 10000
  baselineNetIncome := 50000
  stateIncomeTax := 0
  propertyTaxes := 0
  baselineStateTaxLiability := none
  col := fun _ => 0
  totalChangeInFederalTaxLiability := 0
  totalChangeInStateTaxLiability := 0
  totalChangeInNetIncome := 0
  percentageChangeInFederalTaxLiability := 0
  percentageChangeInStateTaxLiability := 0
  percentageChangeInNetIncome := 0

/-- The example household of the specification: a single active SALT Reform
component with net-income delta −500 (tax delta +500), aggregate federal tax
change +500, aggregate net-income change −500. -/
def hSALT : Household :=
  { baseHousehold with
    col := fun c => if c = "Net income change after SALT Reform" then -500 else 0
    totalChangeInFederalTaxLiability := 500
    totalChangeInNetIncome := -500 }

/-- Like the spec example, but the aggregate federal tax change (+100)
disagrees with the lone component delta: the stored aggregate and
per-component columns are independent data. -/
def hDisagree : Household :=
  { hSALT with totalChangeInFederalTaxLiability := 100 }

/-- Verifier sample: calculated 500, actual 502.99, difference 2.99. -/
def hDiff299 : Household :=
  { hSALT with totalChangeInNetIncome := -502.99 }

/-- Verifier sample: calculated 500, actual 503.01, difference 3.01. -/
def hDiff301 : Household :=
  { hSALT with totalChangeInNetIncome := -503.01 }

/-- A record following the documented input schema: no
`Baseline State Tax Liability` column, but a nonzero `State Income Tax`. -/
def hStateTax : Household :=
  { baseHousehold with stateIncomeTax := 1000 }

/-- A record whose table does carry a `Baseline State Tax Liability` column. -/
def hStateCol : Household :=
  { hStateTax with baselineStateTaxLiability := some 2000 }

/-- Records with IDs 2 and 3, for the selector scenarios. -/
def hId2 : Household := { baseHousehold with householdId := 2 }

def hId3 : Household := { baseHousehold with householdId := 3 }

/-- A one-criterion filter: minimum household weight 500. -/
def cWeight : FilterCriteria :=
  { minWeight := some 500, incomeRange := none, state := none,
    maritalStatus := none, dependents := none, ageRange := none }

/-! ## Helper lemmas about the waterfall loop -/

theorem waterfallLoop_label_delta (A : List (String × ℚ × ℚ)) (bt : ℚ) :
    (waterfallLoop A bt).map (fun s => (s.1, s.2.1))
      = A.map (fun c => (c.1, -c.2.2)) := by
  induction A generalizing bt with
  | nil => rfl
  | cons x xs ih => simp [waterfallLoop, ih]

theorem waterfallLoop_delta (A : List (String × ℚ × ℚ)) (bt : ℚ) :
    (waterfallLoop A bt).map (fun s => s.2.1) = A.map (fun c => -c.2.2) := by
  induction A generalizing bt with
  | nil => rfl
  | cons x xs ih => simp [waterfallLoop, ih]

theorem waterfallLoop_length (A : List (String × ℚ × ℚ)) (bt : ℚ) :
    (waterfallLoop A bt).length = A.length := by
  induction A generalizing bt with
  | nil => rfl
  | cons x xs ih => simp [waterfallLoop, ih]

/-- The slice `waterfall_data[1:-1]` is exactly the relative-step list. -/
theorem waterfall_data_middle (h : Household) (sf ss : Bool) :
    ((waterfall_data h sf ss).drop 1).dropLast
      = waterfallLoop (active_components h sf ss) (baseline_total h sf ss) := by
  simp [waterfall_data]

theorem sum_map_neg_delta (l : List (String × ℚ × ℚ)) :
    (l.map (fun c => -c.2.2)).sum = -((l.map (fun c => c.2.2)).sum) := by
  induction l with
  | nil => simp
  | cons x xs ih => simp [ih]; ring

/-- The verifier sum is the negated sum of the active net-income deltas. -/
theorem total_calculated_change_eq (h : Household) (sf ss : Bool) :
    total_calculated_change h sf ss
      = -(((active_components h sf ss).map (fun c => c.2.2)).sum) := by
  rw [total_calculated_change, waterfall_data_middle, waterfallLoop_delta,
    sum_map_neg_delta]

/-- Each waterfall step after the baseline and before the final one carries
its running total: running = previous running + delta. -/
theorem waterfallLoop_chain (A : List (String × ℚ × ℚ)) (bt : ℚ)
    (x : String × ℚ × ℚ) (hx : x.2.2 = bt) :
    List.Chain (fun a b => b.2.2 = a.2.2 + b.2.1) x (waterfallLoop A bt) := by
  induction A generalizing bt x with
  | nil => exact List.Chain.nil
  | cons c rest ih =>
      exact List.Chain.cons (by simp [hx]) (ih (bt + -c.2.2) _ rfl)

/-! ## Helper lemmas about the filter engine -/

theorem applyStage_eq_filter {α : Type} (records : List Household) (o : Option α)
    (pred : Option α → Household → Bool)
    (hnone : ∀ h, pred none h = true) :
    applyStage records o pred = records.filter (pred o) := by
  cases o with
  | none =>
      simp only [applyStage]
      exact (List.filter_eq_self.mpr (fun a _ => hnone a)).symm
  | some x => rfl

theorem foldFilters_eq_filter_all (l : List (Household → Bool))
    (records : List Household) :
    foldFilters records l = records.filter (fun h => l.all (fun p => p h)) := by
  induction l generalizing records with
  | nil => simp [foldFilters]
  | cons p l ih =>
      simp only [foldFilters, List.foldl_cons]
      rw [show (List.foldl (fun acc q => acc.filter q) (records.filter p) l)
            = foldFilters (records.filter p) l from rfl, ih, List.filter_filter]
      simp only [List.all_cons]
      exact List.filter_congr (fun a _ => Bool.and_comm _ _)

theorem df_filtered_eq_foldFilters (records : List Household) (c : FilterCriteria) :
    df_filtered records c = foldFilters records (filterPreds c) := by
  simp only [df_filtered, foldFilters, filterPreds, List.foldl_cons, List.foldl_nil]
  rw [applyStage_eq_filter records c.minWeight weightPred (fun h => rfl)]
  rw [applyStage_eq_filter _ c.incomeRange incomePred (fun h => rfl)]
  rw [applyStage_eq_filter _ c.state statePred (fun h => rfl)]
  rw [applyStage_eq_filter _ c.maritalStatus maritalPred (fun h => rfl)]
  rw [applyStage_eq_filter _ c.dependents dependentsPred (fun h => rfl)]
  rw [applyStage_eq_filter _ c.ageRange agePred (fun h => rfl)]

theorem df_filtered_eq_filter_all (records : List Household) (c : FilterCriteria) :
    df_filtered records c
      = records.filter (fun h => (filterPreds c).all (fun p => p h)) := by
  rw [df_filtered_eq_foldFilters, foldFilters_eq_filter_all]

/-- Rows surviving the filters are rows of the input. -/
theorem df_filtered_subset (records : List Household) (c : FilterCriteria) :
    ∀ h ∈ df_filtered records c, h ∈ records := by
  intro h hmem
  rw [df_filtered_eq_filter_all] at hmem
  exact List.mem_of_mem_filter hmem

/-! ## Helper lemmas about the ranking comparator -/

theorem rankLE_trans (m : SortMethod) (key : Household → ℚ) :
    ∀ a b c, rankLE m key a b → rankLE m key b c → rankLE m key a c := by
  intro a b c hab hbc
  cases m <;> simp only [rankLE, decide_eq_true_eq] at hab hbc ⊢
  · rcases hab with h1 | ⟨h1, h2⟩ <;> rcases hbc with h3 | ⟨h3, h4⟩
    · exact Or.inl (lt_trans h3 h1)
    · exact Or.inl (h3 ▸ h1)
    · exact Or.inl (h1 ▸ h3)
    · exact Or.inr ⟨h1.trans h3, h2.trans h4⟩
  · rcases hab with h1 | ⟨h1, h2⟩ <;> rcases hbc with h3 | ⟨h3, h4⟩
    · exact Or.inl (lt_trans h1 h3)
    · exact Or.inl (h3 ▸ h1)
    · exact Or.inl (h1 ▸ h3)
    · exact Or.inr ⟨h1.trans h3, h2.trans h4⟩

theorem rankLE_total (m : SortMethod) (key : Household → ℚ) :
    ∀ a b, rankLE m key a b || rankLE m key b a := by
  intro a b
  cases m <;>
    simp only [rankLE, Bool.or_eq_true, decide_eq_true_eq] <;>
    rcases lt_trichotomy (key a.2) (key b.2) with h | h | h <;>
    rcases Nat.le_total a.1 b.1 with h2 | h2 <;> tauto

/-- The structural guarantees of the ranked top-20 list, for any metric and
direction: at most 20 rows, all drawn from the input, strictly ordered by
the metric with ties broken by original row position. -/
theorem ranking_props (m : SortMethod) (key : Household → ℚ) (df : List Household) :
    ((rankedRows m key df).map (fun p => p.2)).length ≤ 20
  ∧ (∀ h ∈ (rankedRows m key df).map (fun p => p.2), h ∈ df)
  ∧ (rankedRows m key df).Pairwise (rankedBefore m key) := by
  refine ⟨?_, ?_, ?_⟩
  · rw [List.length_map]
    exact List.length_take_le _ _
  · intro h hmem
    rcases List.mem_map.mp hmem with ⟨p, hp, rfl⟩
    have hp2 : p ∈ List.mergeSort df.enum (rankLE m key) :=
      List.take_subset _ _ hp
    have hp3 : p ∈ df.enum := List.mem_mergeSort.mp hp2
    have hp4 : p.2 ∈ df.enum.map Prod.snd := List.mem_map_of_mem _ hp3
    rwa [List.enum_map_snd] at hp4
  · have hsorted :
        (List.mergeSort df.enum (rankLE m key)).Pairwise
          (fun a b => rankLE m key a b = true) :=
      List.sorted_mergeSort (rankLE_trans m key) (rankLE_total m key) df.enum
    have htake : (rankedRows m key df).Pairwise (fun a b => rankLE m key a b = true) :=
      hsorted.sublist (List.take_sublist _ _)
    have hperm : List.Perm ((List.mergeSort df.enum (rankLE m key)).map Prod.fst)
        (df.enum.map Prod.fst) :=
      (List.mergeSort_perm df.enum _).map _
    have hnd0 : (df.enum.map Prod.fst).Nodup := by
      rw [List.enum_map_fst]
      exact List.nodup_range _
    have hnd1 : ((List.mergeSort df.enum (rankLE m key)).map Prod.fst).Nodup :=
      hperm.nodup_iff.mpr hnd0
    have hnd2 : ((rankedRows m key df).map Prod.fst).Nodup :=
      hnd1.sublist ((List.take_sublist _ _).map _)
    have hne : (rankedRows m key df).Pairwise (fun a b => a.1 ≠ b.1) :=
      List.pairwise_map.mp hnd2
    refine (htake.and hne).imp ?_
    intro a b hab
    obtain ⟨hle, hab2⟩ := hab
    cases m <;> simp only [rankLE, decide_eq_true_eq] at hle <;>
      simp only [rankedBefore]
    · rcases hle with h | ⟨h1, h2⟩
      · exact Or.inl h
      · exact Or.inr ⟨h1, lt_of_le_of_ne h2 hab2⟩
    · rcases hle with h | ⟨h1, h2⟩
      · exact Or.inl h
      · exact Or.inr ⟨h1, lt_of_le_of_ne h2 hab2⟩

/-! ## Helper lemma: Python max keeps the first maximum -/

/-- The fold inside `biggest_impact_reform` returns the first element of
maximal absolute net-income delta: some decomposition puts it after only
strictly smaller elements, and it dominates every element. -/
theorem foldl_absmax_first :
    ∀ (xs : List (String × ℚ × ℚ)) (x : String × ℚ × ℚ),
      ∃ l1 l2,
        x :: xs
            = l1 ++ (xs.foldl (fun best y => if |best.2.2| < |y.2.2| then y else best) x) :: l2
        ∧ (∀ d ∈ l1,
            |d.2.2| < |(xs.foldl (fun best y => if |best.2.2| < |y.2.2| then y else best) x).2.2|)
        ∧ (∀ d ∈ x :: xs,
            |d.2.2| ≤ |(xs.foldl (fun best y => if |best.2.2| < |y.2.2| then y else best) x).2.2|) := by
  intro xs
  induction xs with
  | nil =>
      intro x
      exact ⟨[], [], rfl, by simp, by simp⟩
  | cons y ys ih =>
      intro x
      simp only [List.foldl_cons]
      by_cases hxy : |x.2.2| < |y.2.2|
      · rw [if_pos hxy]
        obtain ⟨l1, l2, hdec, hlt, hle⟩ := ih y
        refine ⟨x :: l1, l2, ?_, ?_, ?_⟩
        · rw [List.cons_append, ← hdec]
        · intro d hd
          rcases List.mem_cons.mp hd with rfl | hd2
          · exact lt_of_lt_of_le hxy (hle y (List.mem_cons_self _ _))
          · exact hlt d hd2
        · intro d hd
          rcases List.mem_cons.mp hd with rfl | hd2
          · exact le_of_lt (lt_of_lt_of_le hxy (hle y (List.mem_cons_self _ _)))
          · exact hle d hd2
      · rw [if_neg hxy]
        have hyx : |y.2.2| ≤ |x.2.2| := le_of_not_lt hxy
        obtain ⟨l1, l2, hdec, hlt, hle⟩ := ih x
        cases l1 with
        | nil =>
            rw [List.nil_append] at hdec
            injection hdec with h1 h2
            refine ⟨[], y :: ys, ?_, by simp, ?_⟩
            · rw [List.nil_append, ← h1]
            · intro d hd
              rcases List.mem_cons.mp hd with rfl | hd2
              · exact hle d (List.mem_cons_self _ _)
              rcases List.mem_cons.mp hd2 with rfl | hd3
              · rw [← h1]; exact hyx
              · exact hle d (List.mem_cons_of_mem _ hd3)
        | cons a t =>
            rw [List.cons_append] at hdec
            injection hdec with ha hys
            have hxlt : |x.2.2| < |(ys.foldl (fun best y => if |best.2.2| < |y.2.2| then y else best) x).2.2| := by
              have hx2 := hlt a (List.mem_cons_self _ _)
              rwa [← ha] at hx2
            refine ⟨x :: y :: t, l2, ?_, ?_, ?_⟩
            · rw [List.cons_append, List.cons_append, ← hys]
            · intro d hd
              rcases List.mem_cons.mp hd with rfl | hd2
              · exact hxlt
              rcases List.mem_cons.mp hd2 with rfl | hd3
              · exact lt_of_le_of_lt hyx hxlt
              · exact hlt d (List.mem_cons_of_mem _ hd3)
            · intro d hd
              rcases List.mem_cons.mp hd with rfl | hd2
              · exact le_of_lt hxlt
              rcases List.mem_cons.mp hd2 with rfl | hd3
              · exact le_of_lt (lt_of_le_of_lt hyx hxlt)
              · exact hle d (List.mem_cons_of_mem _ hd3)

/-! ## Evaluation lemmas for the sample records -/

theorem decide_thr_zero : decide ((0.01 : ℚ) < 0) = false :=
  decide_eq_false (by norm_num)

theorem decide_thr_500 : decide ((0.01 : ℚ) < 500) = true :=
  decide_eq_true (by norm_num)

theorem active_components_hSALT :
    active_components hSALT true false = [("SALT Reform", 0, -500)] := by
  simp [active_components, reform_components, reform_configs, hSALT, baseHousehold,
    List.filter, decide_thr_zero, decide_thr_500]

theorem active_components_hSALT_ne : active_components hSALT true false ≠ [] := by
  rw [active_components_hSALT]
  simp

theorem tcc_hSALT : total_calculated_change hSALT true false = 500 := by
  simp [total_calculated_change, waterfall_data, waterfallLoop, active_components,
    reform_components, reform_configs, hSALT, baseHousehold, List.filter,
    decide_thr_zero, decide_thr_500]

theorem tcc_hDisagree : total_calculated_change hDisagree true false = 500 := by
  simp [total_calculated_change, waterfall_data, waterfallLoop, active_components,
    reform_components, reform_configs, hDisagree, hSALT, baseHousehold, List.filter,
    decide_thr_zero, decide_thr_500]

theorem tcc_hDiff299 : total_calculated_change hDiff299 true false = 500 := by
  simp [total_calculated_change, waterfall_data, waterfallLoop, active_components,
    reform_components, reform_configs, hDiff299, hSALT, baseHousehold, List.filter,
    decide_thr_zero, decide_thr_500]

theorem tcc_hDiff301 : total_calculated_change hDiff301 true false = 500 := by
  simp [total_calculated_change, waterfall_data, waterfallLoop, active_components,
    reform_components, reform_configs, hDiff301, hSALT, baseHousehold, List.filter,
    decide_thr_zero, decide_thr_500]

/-- C1 (amended): the relative step deltas of the waterfall sum to the
negation of the sum of the active components' stored net-income deltas; that
sum equals `final_total − baseline_total` exactly when the record's aggregate
tax change (the shown parts) agrees with the negated active-component sum — an
agreement the data need not provide, which is why the verifier exists. -/
theorem waterfall_deltas_sum (h : Household) (sf ss : Bool) :
    total_calculated_change h sf ss
        = -(((active_components h sf ss).map (fun c => c.2.2)).sum)
  ∧ (total_calculated_change h sf ss
        = final_total h sf ss - baseline_total h sf ss
      ↔ total_tax_change h sf ss
        = -(((active_components h sf ss).map (fun c => c.2.2)).sum)) := by
  constructor
  · exact total_calculated_change_eq h sf ss
  · rw [total_calculated_change_eq, final_total]
    constructor <;> intro hh <;> linarith

/-- C1 counterexample: a record whose lone active component has net-income
delta −500 (so the step deltas sum to 500) but whose stored aggregate federal
tax change is 100; the step-delta sum differs from
`final_total − baseline_total`. -/
theorem waterfall_deltas_sum_counterexample :
    total_calculated_change hDisagree true false = 500
  ∧ final_total hDisagree true false - baseline_total hDisagree true false = 100
  ∧ total_calculated_change hDisagree true false
      ≠ final_total hDisagree true false - baseline_total hDisagree true false := by
  have h2 : final_total hDisagree true false - baseline_total hDisagree true false
      = 100 := by
    simp [final_total, total_tax_change, baseline_total, hDisagree, hSALT,
      baseHousehold]
  refine ⟨tcc_hDisagree, h2, ?_⟩
  rw [tcc_hDisagree, h2]
  norm_num

/-- C2: the verifier passes exactly when the absolute difference between the
calculated change (sum of relative step deltas) and the actual change
(negated stored net-income change) is below 3; differences of 0 and 2.99
pass, 3.01 fails; and a failing verification still yields the full waterfall
output plus a discrepancy report — it blocks nothing. -/
theorem verifier_tolerance_spec :
    (∀ h sf ss, verification_passes h sf ss = true
        ↔ |total_calculated_change h sf ss - actual_change h| < 3)
  ∧ (∀ h sf ss, |total_calculated_change h sf ss - actual_change h| = 0
        → verification_passes h sf ss = true)
  ∧ (∀ h sf ss, |total_calculated_change h sf ss - actual_change h| = 2.99
        → verification_passes h sf ss = true)
  ∧ (∀ h sf ss, |total_calculated_change h sf ss - actual_change h| = 3.01
        → verification_passes h sf ss = false)
  ∧ (∀ h sf ss, (sf = true ∨ ss = true)
        → verification_passes h sf ss = false
        → active_components h sf ss ≠ []
        → renderImpact h sf ss = Except.ok
            { summary_tax_change := total_tax_change h sf ss,
              waterfall := some (waterfall_data h sf ss),
              measures := some (waterfall_measures h sf ss),
              verification_ok := some false,
              discrepancy := some (total_calculated_change h sf ss, actual_change h),
              biggest_driver := biggest_impact_reform (active_components h sf ss) }) := by
  have hiff : ∀ h sf ss, verification_passes h sf ss = true
      ↔ |total_calculated_change h sf ss - actual_change h| < 3 := by
    intro h sf ss
    simp [verification_passes]
  refine ⟨hiff, ?_, ?_, ?_, ?_⟩
  · intro h sf ss he
    rw [hiff, he]
    norm_num
  · intro h sf ss he
    rw [hiff, he]
    norm_num
  · intro h sf ss he
    rw [Bool.eq_false_iff]
    intro hc
    rw [hiff, he] at hc
    norm_num at hc
  · intro h sf ss hor hv hne
    have hie : (active_components h sf ss).isEmpty = false := by
      simpa using hne
    rcases hor with rfl | rfl <;>
      simp [renderImpact, hie, hv]

/-- C2 witness: at the concrete records the differences are exactly 2.99 and
3.01, and the verifier passes and fails respectively. -/
theorem verifier_tolerance_spec_witness :
    (|total_calculated_change hDiff299 true false - actual_change hDiff299| = 2.99
      ∧ verification_passes hDiff299 true false = true)
  ∧ (|total_calculated_change hDiff301 true false - actual_change hDiff301| = 3.01
      ∧ verification_passes hDiff301 true false = false) := by
  have h299 : |total_calculated_change hDiff299 true false - actual_change hDiff299|
      = 2.99 := by
    rw [tcc_hDiff299]
    simp [actual_change, hDiff299, hSALT, baseHousehold]
    norm_num
  have h301 : |total_calculated_change hDiff301 true false - actual_change hDiff301|
      = 3.01 := by
    rw [tcc_hDiff301]
    simp [actual_change, hDiff301, hSALT, baseHousehold]
    norm_num
  exact ⟨⟨h299, verifier_tolerance_spec.2.2.1 hDiff299 true false h299⟩,
         ⟨h301, verifier_tolerance_spec.2.2.2.1 hDiff301 true false h301⟩⟩

/-- C3: for a record with at least one active component the waterfall is one
baseline step carrying the baseline total, then one relative step per active
component in catalog order whose delta is the negation of the stored
net-income delta, then one final step carrying the final total; the measure
list marks them absolute / relative… / total, and each relative step's
running total is its predecessor's plus its delta. -/
theorem waterfall_step_structure (h : Household) (sf ss : Bool)
    (_hne : active_components h sf ss ≠ []) :
    (waterfall_data h sf ss).length = (active_components h sf ss).length + 2
  ∧ (waterfall_data h sf ss).head? = some
      ("Baseline " ++ chart_type sf ss, baseline_total h sf ss, baseline_total h sf ss)
  ∧ ((waterfall_data h sf ss).drop 1).dropLast.map (fun s => (s.1, s.2.1))
      = (active_components h sf ss).map (fun c => (c.1, -c.2.2))
  ∧ (waterfall_data h sf ss).getLast? = some
      ("Final " ++ chart_type sf ss, final_total h sf ss, final_total h sf ss)
  ∧ waterfall_measures h sf ss
      = "absolute" :: (List.replicate (active_components h sf ss).length "relative"
          ++ ["total"])
  ∧ List.Chain' (fun a b => b.2.2 = a.2.2 + b.2.1)
      ((waterfall_data h sf ss).dropLast) := by
  refine ⟨?_, ?_, ?_, ?_, rfl, ?_⟩
  · simp [waterfall_data, waterfallLoop_length]
  · simp [waterfall_data]
  · rw [waterfall_data_middle, waterfallLoop_label_delta]
  · show ((_ :: (_ ++ _)).getLast? = _)
    rw [← List.cons_append, List.getLast?_concat]
  · have hdl : (waterfall_data h sf ss).dropLast
        = ("Baseline " ++ chart_type sf ss, baseline_total h sf ss,
            baseline_total h sf ss)
          :: waterfallLoop (active_components h sf ss) (baseline_total h sf ss) := by
      show ((_ :: (_ ++ _)).dropLast = _)
      rw [← List.cons_append, List.dropLast_concat]
    rw [hdl]
    exact waterfallLoop_chain _ _ _ rfl

/-- C3 witness: the structure theorem at the specification's SALT example. -/
theorem waterfall_step_structure_witness :
    (waterfall_data hSALT true false).length
        = (active_components hSALT true false).length + 2
  ∧ (waterfall_data hSALT true false).head? = some
      ("Baseline " ++ chart_type true false, baseline_total hSALT true false,
        baseline_total hSALT true false)
  ∧ ((waterfall_data hSALT true false).drop 1).dropLast.map (fun s => (s.1, s.2.1))
      = (active_components hSALT true false).map (fun c => (c.1, -c.2.2))
  ∧ (waterfall_data hSALT true false).getLast? = some
      ("Final " ++ chart_type true false, final_total hSALT true false,
        final_total hSALT true false)
  ∧ waterfall_measures hSALT true false
      = "absolute" :: (List.replicate (active_components hSALT true false).length
          "relative" ++ ["total"])
  ∧ List.Chain' (fun a b => b.2.2 = a.2.2 + b.2.1)
      ((waterfall_data hSALT true false).dropLast) :=
  waterfall_step_structure hSALT true false active_components_hSALT_ne

/-- C4 (the code at the failing input): with selection mode Random Shuffle,
no button press, the persisted session ID 1 left over from an earlier render,
and a current filtered set whose IDs are [2, 3], the pass keeps ID 1 — an ID
of no row of the filtered set — and the subsequent row lookup comes up empty
(an `IndexError` in the source). -/
theorem random_selection_stale_id :
    randomSelect [2, 3] (some 1) false 0 0 = (some 1, some 1)
  ∧ (1 : Int) ∉ ([2, 3] : List Int)
  ∧ householdLookup [hId2, hId3] 1 = none := by
  refine ⟨rfl, by decide, ?_⟩
  rfl

/-- C5: for each of the eight case types and any record set, the ranked list
is the top-20 slice for the mapped metric and direction; it has at most 20
entries, every entry is a row of the given (already filtered) set, and the
position-tagged rows are strictly ordered by the metric in the chosen
direction with ties broken by original row order. -/
theorem ranked_interesting_cases (caseType : String) (df : List Household)
    (hct : caseType ∈ case_types) :
    ∃ m colName, categories caseType = some (m, colName)
      ∧ top_households df caseType
          = (rankedRows m (aggColumn colName) df).map (fun p => p.2)
      ∧ (top_households df caseType).length ≤ 20
      ∧ (∀ h ∈ top_households df caseType, h ∈ df)
      ∧ (rankedRows m (aggColumn colName) df).Pairwise
          (rankedBefore m (aggColumn colName)) := by
  have hgen : ∀ (m : SortMethod) (colName : String),
      ((rankedRows m (aggColumn colName) df).map (fun p => p.2)).length ≤ 20
      ∧ (∀ h ∈ (rankedRows m (aggColumn colName) df).map (fun p => p.2), h ∈ df)
      ∧ (rankedRows m (aggColumn colName) df).Pairwise
          (rankedBefore m (aggColumn colName)) :=
    fun m colName => ranking_props m (aggColumn colName) df
  simp only [case_types, List.mem_cons, List.not_mem_nil, or_false] at hct
  rcases hct with rfl | rfl | rfl | rfl | rfl | rfl | rfl | rfl <;>
    exact ⟨_, _, rfl, rfl, (hgen _ _).1, (hgen _ _).2.1, (hgen _ _).2.2⟩

/-- C5 witness: the ranking guarantees at a one-row record set and the case
type Largest Income Increase. -/
theorem ranked_interesting_cases_witness :
    ∃ m colName, categories "Largest Income Increase" = some (m, colName)
      ∧ top_households [hId2] "Largest Income Increase"
          = (rankedRows m (aggColumn colName) [hId2]).map (fun p => p.2)
      ∧ (top_households [hId2] "Largest Income Increase").length ≤ 20
      ∧ (∀ h ∈ top_households [hId2] "Largest Income Increase", h ∈ [hId2])
      ∧ (rankedRows m (aggColumn colName) [hId2]).Pairwise
          (rankedBefore m (aggColumn colName)) :=
  ranked_interesting_cases "Largest Income Increase" [hId2] (by simp [case_types])

/-- C6 counterexample: a schema-conforming record (no
`Baseline State Tax Liability` column) with state income tax 1000 and federal
baseline 10000; with both flags on the code computes a baseline of 10000,
not the 11000 the claim asks for — the state baseline tax is not included. -/
theorem baseline_total_state_counterexample :
    baseline_total hStateTax true true = 10000
  ∧ baseline_total_spec hStateTax true true = 11000
  ∧ baseline_total hStateTax true true ≠ baseline_total_spec hStateTax true true := by
  have h1 : baseline_total hStateTax true true = 10000 := by
    simp [baseline_total, hStateTax, baseHousehold]
  have h2 : baseline_total_spec hStateTax true true = 11000 := by
    simp [baseline_total_spec, hStateTax, baseHousehold]
    norm_num
  refine ⟨h1, h2, ?_⟩
  rw [h1, h2]
  norm_num

/-- C6 (amended): with `show_state` set the baseline includes the stored
`Baseline State Tax Liability` column value when that column is present, and
0 when it is absent; the record's `State Income Tax` field is never used. -/
theorem baseline_total_optional_state_column (h : Household) (sf ss : Bool) :
    (∀ v, h.baselineStateTaxLiability = some v
        → baseline_total h sf ss
            = (if sf then h.baselineFederalTaxLiability else 0)
              + (if ss then v else 0))
  ∧ (h.baselineStateTaxLiability = none
        → baseline_total h sf ss
            = (if sf then h.baselineFederalTaxLiability else 0)) := by
  constructor
  · intro v hv
    simp [baseline_total, hv]
  · intro hn
    simp [baseline_total, hn]

/-- C6 witness: a record carrying the column with value 2000 contributes it
to the baseline when both flags are on. -/
theorem baseline_total_optional_state_column_witness :
    baseline_total hStateCol true true
      = (if true then hStateCol.baselineFederalTaxLiability else 0)
        + (if true then 2000 else 0) :=
  (baseline_total_optional_state_column hStateCol true true).1 2000 rfl

/-- C7: filtering yields a subset of the input, is idempotent, and any
permutation of the six predicate applications produces the same result. -/
theorem filter_apply_properties (records : List Household) (c : FilterCriteria) :
    (∀ h ∈ df_filtered records c, h ∈ records)
  ∧ df_filtered (df_filtered records c) c = df_filtered records c
  ∧ (∀ l, List.Perm l (filterPreds c)
        → foldFilters records l = df_filtered records c) := by
  refine ⟨df_filtered_subset records c, ?_, ?_⟩
  · rw [df_filtered_eq_filter_all records c, df_filtered_eq_filter_all]
    exact List.filter_eq_self.mpr (fun a ha => (List.mem_filter.mp ha).2)
  · intro l hp
    rw [foldFilters_eq_filter_all, df_filtered_eq_filter_all]
    apply List.filter_congr
    intro a _
    rw [Bool.eq_iff_iff, List.all_eq_true, List.all_eq_true]
    constructor
    · intro hall p hmem
      exact hall p (hp.mem_iff.mpr hmem)
    · intro hall p hmem
      exact hall p (hp.mem_iff.mp hmem)

/-- C7 witness: applying the six predicates of the weight-only criterion in
reverse order to a one-row store agrees with the filter pipeline. -/
theorem filter_apply_properties_witness :
    foldFilters [baseHousehold] (filterPreds cWeight).reverse
      = df_filtered [baseHousehold] cWeight :=
  (filter_apply_properties [baseHousehold] cWeight).2.2
    (filterPreds cWeight).reverse (List.reverse_perm _)

/-- C8: the biggest driver is the first active component, in catalog order,
whose net-income delta attains the maximal absolute value: everything before
it is strictly smaller in magnitude and nothing exceeds it. -/
theorem biggest_driver_spec (h : Household) (sf ss : Bool)
    (hne : active_components h sf ss ≠ []) :
    ∃ c l1 l2,
      biggest_impact_reform (active_components h sf ss) = some c
      ∧ active_components h sf ss = l1 ++ c :: l2
      ∧ (∀ d ∈ l1, |d.2.2| < |c.2.2|)
      ∧ (∀ d ∈ active_components h sf ss, |d.2.2| ≤ |c.2.2|) := by
  obtain ⟨x, xs, hx⟩ := List.exists_cons_of_ne_nil hne
  obtain ⟨l1, l2, hdec, hlt, hle⟩ := foldl_absmax_first xs x
  refine ⟨_, l1, l2, ?_, ?_, hlt, ?_⟩
  · rw [hx]
    rfl
  · rw [hx]
    exact hdec
  · rw [hx]
    exact hle

/-- C8 witness: the maximality guarantees at the SALT example record. -/
theorem biggest_driver_spec_witness :
    ∃ c l1 l2,
      biggest_impact_reform (active_components hSALT true false) = some c
      ∧ active_components hSALT true false = l1 ++ c :: l2
      ∧ (∀ d ∈ l1, |d.2.2| < |c.2.2|)
      ∧ (∀ d ∈ active_components hSALT true false, |d.2.2| ≤ |c.2.2|) :=
  biggest_driver_spec hSALT true false active_components_hSALT_ne

/-- C9: a render pass errors out on the missing-tax-type configuration
exactly when neither flag is set, producing no impact output at all in that
case. -/
theorem no_tax_type_selected_blocks (h : Household) (sf ss : Bool) :
    renderImpact h sf ss = Except.error RenderError.noTaxTypeSelected
      ↔ (sf = false ∧ ss = false) := by
  constructor
  · intro he
    cases sf <;> cases ss <;> simp only [renderImpact] at he
    · exact ⟨rfl, rfl⟩
    · revert he
      split
      · simp_all
      · split <;> simp
    · revert he
      split
      · simp_all
      · split <;> simp
    · revert he
      split
      · simp_all
      · split <;> simp
  · rintro ⟨rfl, rfl⟩
    rfl

/-- The (name, net-income delta) projection of the component tuples does not
depend on the tax-type flags. -/
theorem reform_proj_flag_free (h : Household) (sf ss sf2 ss2 : Bool) :
    (reform_components h sf ss).map (fun c => (c.1, c.2.2))
      = (reform_components h sf2 ss2).map (fun c => (c.1, c.2.2)) := rfl

/-- The activity filter looks only at the (name, delta) projection, so lists
agreeing on that projection filter to lists agreeing on it. -/
theorem filter_proj_eq :
    ∀ (l1 l2 : List (String × ℚ × ℚ)),
      l1.map (fun c => (c.1, c.2.2)) = l2.map (fun c => (c.1, c.2.2))
      → (l1.filter (fun c => decide ((0.01 : ℚ) < |c.2.2|))).map (fun c => (c.1, c.2.2))
          = (l2.filter (fun c => decide ((0.01 : ℚ) < |c.2.2|))).map (fun c => (c.1, c.2.2)) := by
  intro l1
  induction l1 with
  | nil =>
      intro l2 hmap
      have : l2 = [] := List.map_eq_nil_iff.mp hmap.symm
      subst this
      rfl
  | cons a t ih =>
      intro l2 hmap
      cases l2 with
      | nil => simp at hmap
      | cons b t2 =>
          simp only [List.map_cons, List.cons.injEq] at hmap
          obtain ⟨hab, ht⟩ := hmap
          rw [Prod.mk.injEq] at hab
          obtain ⟨h1, h22⟩ := hab
          simp only [List.filter_cons, h22]
          split
          · simp only [List.map_cons]
            rw [List.cons_eq_cons]
            exact ⟨by rw [h1, h22], ih t2 ht⟩
          · exact ih t2 ht

theorem active_proj_eq (h : Household) (sf ss sf2 ss2 : Bool) :
    (active_components h sf ss).map (fun c => (c.1, c.2.2))
      = (active_components h sf2 ss2).map (fun c => (c.1, c.2.2)) :=
  filter_proj_eq _ _ (reform_proj_flag_free h sf ss sf2 ss2)

/-- C10: across any two flag settings with at least one flag on, the active
component names and the relative waterfall step deltas coincide — the flags
reach only the absolute baseline and final steps. -/
theorem flags_only_affect_absolute_steps (h : Household) (sf ss sf2 ss2 : Bool)
    (_h1 : sf = true ∨ ss = true) (_h2 : sf2 = true ∨ ss2 = true) :
    (active_components h sf ss).map (fun c => c.1)
        = (active_components h sf2 ss2).map (fun c => c.1)
  ∧ ((waterfall_data h sf ss).drop 1).dropLast.map (fun s => s.2.1)
        = ((waterfall_data h sf2 ss2).drop 1).dropLast.map (fun s => s.2.1) := by
  have hp := active_proj_eq h sf ss sf2 ss2
  constructor
  · have hmap := congrArg (List.map Prod.fst) hp
    simpa [List.map_map, Function.comp] using hmap
  · rw [waterfall_data_middle, waterfall_data_middle, waterfallLoop_delta,
      waterfallLoop_delta]
    have hmap := congrArg (List.map (fun p : String × ℚ => -p.2)) hp
    simpa [List.map_map, Function.comp] using hmap

/-- C10 witness: federal-only and state-only settings agree on active
component names and relative deltas at the SALT example record. -/
theorem flags_only_affect_absolute_steps_witness :
    (active_components hSALT true false).map (fun c => c.1)
        = (active_components hSALT false true).map (fun c => c.1)
  ∧ ((waterfall_data hSALT true false).drop 1).dropLast.map (fun s => s.2.1)
        = ((waterfall_data hSALT false true).drop 1).dropLast.map (fun s => s.2.1) :=
  flags_only_affect_absolute_steps hSALT true false false true
    (Or.inl rfl) (Or.inr rfl)
